import Mathlib

set_option linter.unusedVariables false

/-! Shallow embedding of the integer conversion module src/objects/num3.rs:
bidirectional conversions between Rust fixed-width integers and Python
long objects, with platform-dependent adapter selection. -/

/-- Build-time platform configuration: the two cfg axes used by the source,
target_pointer_width (64 or 32) and whether target_os is windows. -/
structure Platform where
  pointerIs64 : Bool
  windows : Bool
deriving DecidableEq

/-- The C long type is 64-bit exactly on 64-bit non-Windows targets, which is
the condition cfg(all(target_pointer_width 64, not windows)) of the source. -/
def Platform.longIs64 (p : Platform) : Bool := p.pointerIs64 && !p.windows

/-- Pointer width in bits (width of isize and usize). -/
def Platform.ptrBits (p : Platform) : Nat := if p.pointerIs64 then 64 else 32

/-- Width of the C long type in bits. -/
def Platform.longBits (p : Platform) : Nat := if p.longIs64 then 64 else 32

/-- A fixed-width two-complement integer type: bit width and signedness. -/
structure IntType where
  bits : Nat
  signed : Bool
deriving DecidableEq

/-- Smallest representable value. -/
def IntType.minVal (t : IntType) : Int :=
  if t.signed then -(2 ^ (t.bits - 1)) else 0

/-- Largest representable value. -/
def IntType.maxVal (t : IntType) : Int :=
  if t.signed then 2 ^ (t.bits - 1) - 1 else 2 ^ t.bits - 1

/-- The value v is representable in type t. -/
def IntType.fits (t : IntType) (v : Int) : Prop :=
  t.minVal ≤ v ∧ v ≤ t.maxVal

instance (t : IntType) (v : Int) : Decidable (t.fits v) := by
  unfold IntType.fits; infer_instance

/-- Semantics of a Rust as-cast into type t: two-complement wrap-around. -/
def IntType.wrap (t : IntType) (v : Int) : Int :=
  let m := v % (2 ^ t.bits : Int)
  if t.signed = true ∧ 2 ^ (t.bits - 1) ≤ m then m - 2 ^ t.bits else m

/-- num_traits checked cast into target type t: value-preserving, none when
the value is not representable in t. -/
def num_traits.cast (t : IntType) (v : Int) : Option Int :=
  if t.fits v then some v else none

/-- The C long type of the platform. -/
def c_long (p : Platform) : IntType := ⟨p.longBits, true⟩

/-- The C long long type (always 64-bit signed). -/
def c_longlong : IntType := ⟨64, true⟩

/-- The C unsigned long long type (always 64-bit unsigned). -/
def c_ulonglong : IntType := ⟨64, false⟩

/-- The Rust integer types the module implements conversions for. -/
inductive RustType where
  | i8 | u8 | i16 | u16 | i32 | u32 | i64 | u64 | isize | usize
deriving DecidableEq

/-- Width and signedness of each Rust type on platform p. -/
def RustType.ty (p : Platform) : RustType → IntType
  | .i8 => ⟨8, true⟩
  | .u8 => ⟨8, false⟩
  | .i16 => ⟨16, true⟩
  | .u16 => ⟨16, false⟩
  | .i32 => ⟨32, true⟩
  | .u32 => ⟨32, false⟩
  | .i64 => ⟨64, true⟩
  | .u64 => ⟨64, false⟩
  | .isize => ⟨p.ptrBits, true⟩
  | .usize => ⟨p.ptrBits, false⟩

/-- Kinds of Python exception relevant to this module. -/
inductive PyErrKind where
  | overflowError
  | typeError
  | systemError
deriving DecidableEq

/-- The Python thread state visible to this module: the pending-error slot.
Modelled from the spec: the per-thread pending error condition of
sections 5 and 6, set by the runtime and read or fetched by this module. -/
structure PyState where
  pending : Option PyErrKind
deriving DecidableEq

/-- The thread state with no pending error. -/
def noErr : PyState := ⟨none⟩

/-- A Python object handle as observable by this module. Modelled from the
spec: an interpreter integer handle holds an arbitrary-precision value; any
other handle is characterised by the outcome of the runtime numeric coercion
applied to it (an integer value, or the error it raises). -/
inductive PyObjectRef where
  | intObj (v : Int)
  | nonInt (coerce : Except PyErrKind Int)

/-- PyErr occurred: whether a pending error condition exists. -/
def PyErr.occurred (s : PyState) : Bool := s.pending.isSome

/-- PyErr fetch: consume and return the pending error state. -/
def PyErr.fetch (s : PyState) : PyErrKind × PyState :=
  (s.pending.getD .systemError, ⟨none⟩)

/-- Runtime is-integer-object type check. -/
def PyLong_Check : PyObjectRef → Bool
  | .intObj _ => true
  | .nonInt _ => false

/-- The integer value a handle coerces to through the runtime numeric
coercion, or the error that coercion raises. -/
def PyObjectRef.asInteger : PyObjectRef → Except PyErrKind Int
  | .intObj v => .ok v
  | .nonInt c => c

/-- Modelled from the spec: construct-integer-from-native-long never fails on
this path; the result is an owned integer object holding the exact value. A
null result is kept representable in the type so the panic wrapper below can
be specified. -/
def PyLong_FromLong (v : Int) : Option PyObjectRef := some (.intObj v)

/-- Modelled from the spec: construct-integer-from-native-long-long. -/
def PyLong_FromLongLong (v : Int) : Option PyObjectRef := some (.intObj v)

/-- Modelled from the spec: construct-integer-from-native-unsigned-long-long. -/
def PyLong_FromUnsignedLongLong (v : Int) : Option PyObjectRef := some (.intObj v)

/-- Modelled from the spec: read-native-long-from-handle. Coerces the handle
to an integer, then returns its value when it fits the platform C long, and
otherwise the sentinel -1 together with a pending OverflowError; a failed
coercion yields the sentinel with that pending error. -/
def PyLong_AsLong (p : Platform) (o : PyObjectRef) (s : PyState) : Int × PyState :=
  match o.asInteger with
  | .error e => (-1, ⟨some e⟩)
  | .ok v => if (c_long p).fits v then (v, s) else (-1, ⟨some .overflowError⟩)

/-- Modelled from the spec: read-native-long-long-from-handle, sentinel -1. -/
def PyLong_AsLongLong (o : PyObjectRef) (s : PyState) : Int × PyState :=
  match o.asInteger with
  | .error e => (-1, ⟨some e⟩)
  | .ok v => if c_longlong.fits v then (v, s) else (-1, ⟨some .overflowError⟩)

/-- Modelled from the spec: read-native-unsigned-long-long-from-handle. The
sentinel is the all-bits value 2 ^ 64 - 1; a negative or too-large value sets
a pending OverflowError; a non-integer handle sets a pending TypeError. -/
def PyLong_AsUnsignedLongLong (o : PyObjectRef) (s : PyState) : Int × PyState :=
  match o with
  | .intObj v => if c_ulonglong.fits v then (v, s) else (2 ^ 64 - 1, ⟨some .overflowError⟩)
  | .nonInt _ => (2 ^ 64 - 1, ⟨some .typeError⟩)

/-- Modelled from the spec: coerce-to-integer-object. Returns an owned
integer object, or null after setting the pending error. -/
def PyNumber_Long (o : PyObjectRef) (s : PyState) : Option PyObjectRef × PyState :=
  match o.asInteger with
  | .ok v => (some (.intObj v), s)
  | .error e => (none, ⟨some e⟩)

/-- Result of a Rust computation that either returns normally or panics. -/
inductive PanicOr (α : Type) where
  | ran (a : α)
  | aborted

/-- PyObject from_owned_ptr_or_panic: a null pointer aborts the calling
operation; any other pointer becomes an owned object. -/
def PyObject.from_owned_ptr_or_panic : Option PyObjectRef → PanicOr PyObjectRef
  | some o => .ran o
  | none => .aborted

/-- Expansion of the to_object body of macro int_fits_c_long, generic in the
runtime constructor so that the null case can be stated: the value is cast to
C long with a Rust as-cast and passed to the constructor, whose result goes
through from_owned_ptr_or_panic. -/
def int_fits_c_long.to_object_via (fromLong : Int → Option PyObjectRef)
    (p : Platform) (v : Int) : PanicOr PyObjectRef :=
  PyObject.from_owned_ptr_or_panic (fromLong ((c_long p).wrap v))

/-- The to_object body of macro int_fits_c_long, applied to PyLong_FromLong. -/
def int_fits_c_long.to_object (p : Platform) (v : Int) : PanicOr PyObjectRef :=
  int_fits_c_long.to_object_via PyLong_FromLong p v

/-- The pyobject_extract body of macro int_fits_c_long, for target type t:
read a C long from the handle; if the result is the sentinel -1 and an error
is pending, fetch and propagate it; otherwise apply the checked cast to t,
a failure of which is an OverflowError. -/
def int_fits_c_long.extract (p : Platform) (t : IntType) (obj : PyObjectRef)
    (s : PyState) : Except PyErrKind Int × PyState :=
  let r := PyLong_AsLong p obj s
  if r.1 = -1 ∧ PyErr.occurred r.2 = true then
    let f := PyErr.fetch r.2
    (.error f.1, f.2)
  else
    match num_traits.cast t r.1 with
    | some v => (.ok v, r.2)
    | none => (.error .overflowError, r.2)

/-- Expansion of the to_object body of macro int_fits_larger_int: as-cast the
value to the larger type and delegate to that type's into_object. -/
def int_fits_larger_int.to_object_via (larger_into : Int → PanicOr PyObjectRef)
    (larger : IntType) (v : Int) : PanicOr PyObjectRef :=
  larger_into (larger.wrap v)

/-- Expansion of the pyobject_extract body of macro int_fits_larger_int for
target type t: extract the larger type (propagating its error), then apply
the checked cast to t, a failure of which is an OverflowError. -/
def int_fits_larger_int.extract_via
    (larger_extract : PyObjectRef → PyState → Except PyErrKind Int × PyState)
    (t : IntType) (obj : PyObjectRef) (s : PyState) : Except PyErrKind Int × PyState :=
  match larger_extract obj s with
  | (.ok val, s1) =>
    match num_traits.cast t val with
    | some v => (.ok v, s1)
    | none => (.error .overflowError, s1)
  | (.error e, s1) => (.error e, s1)

/-- Helper err_if_invalid_value of the source: a result equal to the invalid
sentinel is an error only when an error is pending, in which case it is
fetched and propagated; otherwise the result is accepted. -/
def err_if_invalid_value (invalid_value actual_value : Int) (s : PyState) :
    Except PyErrKind Int × PyState :=
  if actual_value = invalid_value ∧ PyErr.occurred s = true then
    let f := PyErr.fetch s
    (.error f.1, f.2)
  else
    (.ok actual_value, s)

/-- Expansion of the to_object body of macro int_convert_u64_or_i64, generic
in the runtime constructor: the value is passed unchanged to the dedicated
64-bit constructor, whose result goes through from_owned_ptr_or_panic. -/
def int_convert_u64_or_i64.to_object_via (pylong_from : Int → Option PyObjectRef)
    (v : Int) : PanicOr PyObjectRef :=
  PyObject.from_owned_ptr_or_panic (pylong_from v)

/-- Expansion of the FromPyObject body of macro int_convert_u64_or_i64 for
rust type t with 64-bit accessor pylong_as: if the handle is an integer
object, apply the accessor and the sentinel check with invalid value the
all-bits pattern of t; otherwise coerce through PyNumber_Long, propagating a
fetched pending error on null, and apply the accessor to the coerced object
with the same sentinel check. -/
def int_convert_u64_or_i64.extract (t : IntType)
    (pylong_as : PyObjectRef → PyState → Int × PyState)
    (ob : PyObjectRef) (s : PyState) : Except PyErrKind Int × PyState :=
  if PyLong_Check ob = true then
    let r := pylong_as ob s
    err_if_invalid_value (t.wrap (-1)) r.1 r.2
  else
    match PyNumber_Long ob s with
    | (none, s1) =>
      let f := PyErr.fetch s1
      (.error f.1, f.2)
    | (some num, s1) =>
      let r := pylong_as num s1
      err_if_invalid_value (t.wrap (-1)) r.1 r.2

/-- The adapter families of the module. -/
inductive Adapter where
  | fits_c_long
  | fits_larger (larger : RustType)
  | convert64 (signedVariant : Bool)
deriving DecidableEq

/-- The cfg-selected adapter for each Rust type, transcribing the macro
instantiation block of the source: i8, u8, i16, u16, i32 always direct; u32,
i64, isize direct when C long is 64-bit and otherwise widened to u64,
converted with the dedicated signed 64-bit pair, and widened to i64
respectively; usize always widened to u64; u64 always converted with the
dedicated unsigned 64-bit pair. -/
def adapterFor (p : Platform) : RustType → Adapter
  | .i8 => .fits_c_long
  | .u8 => .fits_c_long
  | .i16 => .fits_c_long
  | .u16 => .fits_c_long
  | .i32 => .fits_c_long
  | .u32 => if p.longIs64 then .fits_c_long else .fits_larger .u64
  | .i64 => if p.longIs64 then .fits_c_long else .convert64 true
  | .isize => if p.longIs64 then .fits_c_long else .fits_larger .i64
  | .usize => .fits_larger .u64
  | .u64 => .convert64 false

/-- u64: int_convert_u64_or_i64 with the unsigned long long pair,
unconditionally (the instantiation carries no cfg attribute). -/
def u64.into_object (p : Platform) (v : Int) : PanicOr PyObjectRef :=
  int_convert_u64_or_i64.to_object_via PyLong_FromUnsignedLongLong v

/-- u64 extraction through the dedicated unsigned accessor. -/
def u64.extract (p : Platform) (ob : PyObjectRef) (s : PyState) :
    Except PyErrKind Int × PyState :=
  int_convert_u64_or_i64.extract ⟨64, false⟩ PyLong_AsUnsignedLongLong ob s

/-- i64: int_fits_c_long on 64-bit non-Windows targets, otherwise
int_convert_u64_or_i64 with the signed long long pair. -/
def i64.into_object (p : Platform) (v : Int) : PanicOr PyObjectRef :=
  if p.longIs64 = true then int_fits_c_long.to_object p v
  else int_convert_u64_or_i64.to_object_via PyLong_FromLongLong v

/-- i64 extraction, cfg-selected like i64.into_object. -/
def i64.extract (p : Platform) (ob : PyObjectRef) (s : PyState) :
    Except PyErrKind Int × PyState :=
  if p.longIs64 = true then int_fits_c_long.extract p ⟨64, true⟩ ob s
  else int_convert_u64_or_i64.extract ⟨64, true⟩ PyLong_AsLongLong ob s

/-- i8: always int_fits_c_long. -/
def i8.into_object (p : Platform) (v : Int) : PanicOr PyObjectRef :=
  int_fits_c_long.to_object p v

/-- i8 extraction. -/
def i8.extract (p : Platform) (ob : PyObjectRef) (s : PyState) :
    Except PyErrKind Int × PyState :=
  int_fits_c_long.extract p ⟨8, true⟩ ob s

/-- u8: always int_fits_c_long. -/
def u8.into_object (p : Platform) (v : Int) : PanicOr PyObjectRef :=
  int_fits_c_long.to_object p v

/-- u8 extraction. -/
def u8.extract (p : Platform) (ob : PyObjectRef) (s : PyState) :
    Except PyErrKind Int × PyState :=
  int_fits_c_long.extract p ⟨8, false⟩ ob s

/-- i16: always int_fits_c_long. -/
def i16.into_object (p : Platform) (v : Int) : PanicOr PyObjectRef :=
  int_fits_c_long.to_object p v

/-- i16 extraction. -/
def i16.extract (p : Platform) (ob : PyObjectRef) (s : PyState) :
    Except PyErrKind Int × PyState :=
  int_fits_c_long.extract p ⟨16, true⟩ ob s

/-- u16: always int_fits_c_long. -/
def u16.into_object (p : Platform) (v : Int) : PanicOr PyObjectRef :=
  int_fits_c_long.to_object p v

/-- u16 extraction. -/
def u16.extract (p : Platform) (ob : PyObjectRef) (s : PyState) :
    Except PyErrKind Int × PyState :=
  int_fits_c_long.extract p ⟨16, false⟩ ob s

/-- i32: always int_fits_c_long. -/
def i32.into_object (p : Platform) (v : Int) : PanicOr PyObjectRef :=
  int_fits_c_long.to_object p v

/-- i32 extraction. -/
def i32.extract (p : Platform) (ob : PyObjectRef) (s : PyState) :
    Except PyErrKind Int × PyState :=
  int_fits_c_long.extract p ⟨32, true⟩ ob s

/-- u32: int_fits_c_long on 64-bit non-Windows targets, otherwise
int_fits_larger_int widening to u64. -/
def u32.into_object (p : Platform) (v : Int) : PanicOr PyObjectRef :=
  if p.longIs64 = true then int_fits_c_long.to_object p v
  else int_fits_larger_int.to_object_via (u64.into_object p) ⟨64, false⟩ v

/-- u32 extraction, cfg-selected like u32.into_object. -/
def u32.extract (p : Platform) (ob : PyObjectRef) (s : PyState) :
    Except PyErrKind Int × PyState :=
  if p.longIs64 = true then int_fits_c_long.extract p ⟨32, false⟩ ob s
  else int_fits_larger_int.extract_via (u64.extract p) ⟨32, false⟩ ob s

/-- isize: int_fits_c_long on 64-bit non-Windows targets, otherwise
int_fits_larger_int widening to i64. -/
def isize.into_object (p : Platform) (v : Int) : PanicOr PyObjectRef :=
  if p.longIs64 = true then int_fits_c_long.to_object p v
  else int_fits_larger_int.to_object_via (i64.into_object p) ⟨64, true⟩ v

/-- isize extraction, cfg-selected like isize.into_object. -/
def isize.extract (p : Platform) (ob : PyObjectRef) (s : PyState) :
    Except PyErrKind Int × PyState :=
  if p.longIs64 = true then int_fits_c_long.extract p ⟨p.ptrBits, true⟩ ob s
  else int_fits_larger_int.extract_via (i64.extract p) ⟨p.ptrBits, true⟩ ob s

/-- usize: always int_fits_larger_int widening to u64. -/
def usize.into_object (p : Platform) (v : Int) : PanicOr PyObjectRef :=
  int_fits_larger_int.to_object_via (u64.into_object p) ⟨64, false⟩ v

/-- usize extraction through the u64 adapter. -/
def usize.extract (p : Platform) (ob : PyObjectRef) (s : PyState) :
    Except PyErrKind Int × PyState :=
  int_fits_larger_int.extract_via (u64.extract p) ⟨p.ptrBits, false⟩ ob s

/-- The IntoPyObject conversion, dispatched on the static Rust type. -/
def IntoPyObject.into_object (p : Platform) : RustType → Int → PanicOr PyObjectRef
  | .i8 => i8.into_object p
  | .u8 => u8.into_object p
  | .i16 => i16.into_object p
  | .u16 => u16.into_object p
  | .i32 => i32.into_object p
  | .u32 => u32.into_object p
  | .i64 => i64.into_object p
  | .u64 => u64.into_object p
  | .isize => isize.into_object p
  | .usize => usize.into_object p

/-- The ToPyObject conversion; for every type its body is the same macro
expansion as the IntoPyObject one. -/
def ToPyObject.to_object (p : Platform) (t : RustType) : Int → PanicOr PyObjectRef :=
  IntoPyObject.into_object p t

/-- The FromPyObject extraction, dispatched on the static Rust type. -/
def FromPyObject.extract (p : Platform) :
    RustType → PyObjectRef → PyState → Except PyErrKind Int × PyState
  | .i8 => i8.extract p
  | .u8 => u8.extract p
  | .i16 => i16.extract p
  | .u16 => u16.extract p
  | .i32 => i32.extract p
  | .u32 => u32.extract p
  | .i64 => i64.extract p
  | .u64 => u64.extract p
  | .isize => isize.extract p
  | .usize => usize.extract p

example : FromPyObject.extract ⟨true, false⟩ .u8 (.intObj 200) noErr = (.ok 200, noErr) := by
  rfl

example : FromPyObject.extract ⟨true, false⟩ .i8 (.intObj 200) noErr =
    (.error .overflowError, noErr) := by rfl

example : FromPyObject.extract ⟨false, true⟩ .u64 (.intObj (2 ^ 64 - 1)) noErr =
    (.ok (2 ^ 64 - 1), noErr) := by rfl

example : ToPyObject.to_object ⟨false, false⟩ .u32 (2 ^ 32 - 1) =
    .ran (.intObj (2 ^ 32 - 1)) := by rfl

/-- A value representable in t is left unchanged by the as-cast into t. -/
theorem IntType.wrap_eq_self {t : IntType} {v : Int} (hb : 0 < t.bits)
    (h : t.fits v) : t.wrap v = v := by
  obtain ⟨bits, signed⟩ := t
  obtain ⟨h1, h2⟩ := h
  simp only [IntType.minVal, IntType.maxVal] at h1 h2
  simp only [IntType.wrap]
  have hsucc : bits = (bits - 1) + 1 := (Nat.succ_pred_eq_of_pos hb).symm
  have hBpos : (0 : Int) < 2 ^ (bits - 1) := pow_pos (by norm_num) _
  have h2B : (2 : Int) ^ bits = 2 ^ (bits - 1) * 2 := by
    conv_lhs => rw [hsucc, pow_succ]
  cases signed with
  | false =>
    have h1x : 0 ≤ v := by simpa using h1
    have h2x : v ≤ 2 ^ bits - 1 := by simpa using h2
    rw [if_neg (by simp)]
    exact Int.emod_eq_of_lt h1x (by linarith)
  | true =>
    have h1x : -(2 ^ (bits - 1)) ≤ v := by simpa using h1
    have h2x : v ≤ 2 ^ (bits - 1) - 1 := by simpa using h2
    rcases le_or_lt 0 v with hv | hv
    · have hm : v % 2 ^ bits = v := Int.emod_eq_of_lt hv (by linarith)
      rw [hm, if_neg (by rintro ⟨h3, h4⟩; linarith)]
    · have hm : v % 2 ^ bits = v + 2 ^ bits := by
        have step := Int.add_mul_emod_self_left v (2 ^ bits) 1
        rw [mul_one] at step
        rw [← step]
        exact Int.emod_eq_of_lt (by linarith) (by linarith)
      rw [hm, if_pos ⟨rfl, by linarith⟩]
      ring

/-- The platform C long is 32 or 64 bits wide. -/
theorem Platform.longBits_cases (p : Platform) :
    p.longBits = 64 ∨ p.longBits = 32 := by
  unfold Platform.longBits
  by_cases h : p.longIs64 = true <;> simp [h]

/-- The pointer width is 32 or 64 bits. -/
theorem Platform.ptrBits_cases (p : Platform) :
    p.ptrBits = 64 ∨ p.ptrBits = 32 := by
  unfold Platform.ptrBits
  by_cases h : p.pointerIs64 = true <;> simp [h]

/-- Any value of the 32-bit signed range fits the platform C long. -/
theorem c_long_fits_of_i32 (p : Platform) (z : Int)
    (h1 : -(2 ^ 31) ≤ z) (h2 : z ≤ 2 ^ 31 - 1) : (c_long p).fits z := by
  unfold c_long IntType.fits IntType.minVal IntType.maxVal
  rcases p.longBits_cases with h | h <;> rw [h] <;> norm_num at h1 h2 ⊢ <;> omega

/-- When the C long is 64-bit, any value of the 64-bit signed range fits it. -/
theorem c_long_fits_of_i64 (p : Platform) (h64 : p.longIs64 = true) (z : Int)
    (h1 : -(2 ^ 63) ≤ z) (h2 : z ≤ 2 ^ 63 - 1) : (c_long p).fits z := by
  unfold c_long Platform.longBits IntType.fits IntType.minVal IntType.maxVal
  rw [h64]
  norm_num at h1 h2 ⊢
  omega

/-- When the C long is 64-bit, the pointer width is 64 bits. -/
theorem ptrBits_of_longIs64 (p : Platform) (h64 : p.longIs64 = true) :
    p.ptrBits = 64 := by
  obtain ⟨p64, win⟩ := p
  unfold Platform.longIs64 at h64
  unfold Platform.ptrBits
  simp at h64 ⊢
  exact h64.1

/-- Extraction through int_fits_c_long from an integer handle in a clean
state: the exact value when it fits both the C long and the target type,
otherwise an OverflowError. -/
theorem int_fits_c_long.extract_intObj (p : Platform) (t : IntType) (z : Int) :
    int_fits_c_long.extract p t (.intObj z) noErr =
      if (c_long p).fits z ∧ t.fits z then (.ok z, noErr)
      else (.error .overflowError, noErr) := by
  by_cases hc : (c_long p).fits z <;> by_cases ht : t.fits z <;>
    simp [int_fits_c_long.extract, PyLong_AsLong, PyObjectRef.asInteger,
      num_traits.cast, PyErr.occurred, PyErr.fetch, noErr, hc, ht]

/-- Extraction through int_fits_c_long when the target range lies inside the
C long range at the given value. -/
theorem int_fits_c_long.extract_intObj_of_sub (p : Platform) (t : IntType)
    (z : Int) (hsub : t.fits z → (c_long p).fits z) :
    int_fits_c_long.extract p t (.intObj z) noErr =
      if t.fits z then (.ok z, noErr) else (.error .overflowError, noErr) := by
  rw [int_fits_c_long.extract_intObj]
  by_cases ht : t.fits z
  · rw [if_pos ⟨hsub ht, ht⟩, if_pos ht]
  · rw [if_neg (fun hcon => ht hcon.2), if_neg ht]

/-- The all-bits pattern of the signed 64-bit type is -1. -/
theorem wrap_s64_neg_one : (⟨64, true⟩ : IntType).wrap (-1) = -1 := by decide

/-- The all-bits pattern of the unsigned 64-bit type is 2 ^ 64 - 1. -/
theorem wrap_u64_neg_one : (⟨64, false⟩ : IntType).wrap (-1) = 2 ^ 64 - 1 := by
  decide

/-- Extraction through the signed 64-bit adapter from an integer handle. -/
theorem int_convert64_signed_intObj (z : Int) :
    int_convert_u64_or_i64.extract ⟨64, true⟩ PyLong_AsLongLong (.intObj z) noErr =
      if (⟨64, true⟩ : IntType).fits z then (.ok z, noErr)
      else (.error .overflowError, noErr) := by
  by_cases h : (⟨64, true⟩ : IntType).fits z <;>
    simp [int_convert_u64_or_i64.extract, PyLong_Check, PyLong_AsLongLong,
      PyObjectRef.asInteger, err_if_invalid_value, PyErr.occurred, PyErr.fetch,
      noErr, c_longlong, wrap_s64_neg_one, h]

/-- Extraction through the unsigned 64-bit adapter from an integer handle. -/
theorem int_convert64_unsigned_intObj (z : Int) :
    int_convert_u64_or_i64.extract ⟨64, false⟩ PyLong_AsUnsignedLongLong
        (.intObj z) noErr =
      if (⟨64, false⟩ : IntType).fits z then (.ok z, noErr)
      else (.error .overflowError, noErr) := by
  by_cases h : (⟨64, false⟩ : IntType).fits z <;>
    simp [int_convert_u64_or_i64.extract, PyLong_Check, PyLong_AsUnsignedLongLong,
      PyObjectRef.asInteger, err_if_invalid_value, PyErr.occurred, PyErr.fetch,
      noErr, c_ulonglong, wrap_u64_neg_one, h]

/-- Widening extraction in if form, given the behaviour of the larger
adapter on the handle. -/
theorem int_fits_larger_int.extract_via_if
    (f : PyObjectRef → PyState → Except PyErrKind Int × PyState)
    (t tl : IntType) (ob : PyObjectRef) (z : Int)
    (hf : f ob noErr =
      if tl.fits z then (.ok z, noErr) else (.error .overflowError, noErr))
    (hsub : t.fits z → tl.fits z) :
    int_fits_larger_int.extract_via f t ob noErr =
      if t.fits z then (.ok z, noErr) else (.error .overflowError, noErr) := by
  by_cases hl : tl.fits z
  · rw [if_pos hl] at hf
    by_cases ht : t.fits z <;>
      simp [int_fits_larger_int.extract_via, hf, num_traits.cast, ht]
  · rw [if_neg hl] at hf
    rw [if_neg (fun ht => hl (hsub ht))]
    simp [int_fits_larger_int.extract_via, hf]

/-- i8 extraction from an integer handle. -/
theorem i8_extract_intObj (p : Platform) (z : Int) :
    i8.extract p (.intObj z) noErr =
      if (⟨8, true⟩ : IntType).fits z then (.ok z, noErr)
      else (.error .overflowError, noErr) := by
  unfold i8.extract
  apply int_fits_c_long.extract_intObj_of_sub
  intro h
  obtain ⟨h1, h2⟩ := h
  simp only [IntType.minVal, IntType.maxVal] at h1 h2
  norm_num at h1 h2
  apply c_long_fits_of_i32 p z <;> norm_num <;> omega

/-- u8 extraction from an integer handle. -/
theorem u8_extract_intObj (p : Platform) (z : Int) :
    u8.extract p (.intObj z) noErr =
      if (⟨8, false⟩ : IntType).fits z then (.ok z, noErr)
      else (.error .overflowError, noErr) := by
  unfold u8.extract
  apply int_fits_c_long.extract_intObj_of_sub
  intro h
  obtain ⟨h1, h2⟩ := h
  simp only [IntType.minVal, IntType.maxVal] at h1 h2
  norm_num at h1 h2
  apply c_long_fits_of_i32 p z <;> norm_num <;> omega

/-- i16 extraction from an integer handle. -/
theorem i16_extract_intObj (p : Platform) (z : Int) :
    i16.extract p (.intObj z) noErr =
      if (⟨16, true⟩ : IntType).fits z then (.ok z, noErr)
      else (.error .overflowError, noErr) := by
  unfold i16.extract
  apply int_fits_c_long.extract_intObj_of_sub
  intro h
  obtain ⟨h1, h2⟩ := h
  simp only [IntType.minVal, IntType.maxVal] at h1 h2
  norm_num at h1 h2
  apply c_long_fits_of_i32 p z <;> norm_num <;> omega

/-- u16 extraction from an integer handle. -/
theorem u16_extract_intObj (p : Platform) (z : Int) :
    u16.extract p (.intObj z) noErr =
      if (⟨16, false⟩ : IntType).fits z then (.ok z, noErr)
      else (.error .overflowError, noErr) := by
  unfold u16.extract
  apply int_fits_c_long.extract_intObj_of_sub
  intro h
  obtain ⟨h1, h2⟩ := h
  simp only [IntType.minVal, IntType.maxVal] at h1 h2
  norm_num at h1 h2
  apply c_long_fits_of_i32 p z <;> norm_num <;> omega

/-- i32 extraction from an integer handle. -/
theorem i32_extract_intObj (p : Platform) (z : Int) :
    i32.extract p (.intObj z) noErr =
      if (⟨32, true⟩ : IntType).fits z then (.ok z, noErr)
      else (.error .overflowError, noErr) := by
  unfold i32.extract
  apply int_fits_c_long.extract_intObj_of_sub
  intro h
  obtain ⟨h1, h2⟩ := h
  simp only [IntType.minVal, IntType.maxVal] at h1 h2
  norm_num at h1 h2
  apply c_long_fits_of_i32 p z <;> norm_num <;> omega

/-- u64 extraction from an integer handle. -/
theorem u64_extract_intObj (p : Platform) (z : Int) :
    u64.extract p (.intObj z) noErr =
      if (⟨64, false⟩ : IntType).fits z then (.ok z, noErr)
      else (.error .overflowError, noErr) := by
  unfold u64.extract
  exact int_convert64_unsigned_intObj z

/-- i64 extraction from an integer handle. -/
theorem i64_extract_intObj (p : Platform) (z : Int) :
    i64.extract p (.intObj z) noErr =
      if (⟨64, true⟩ : IntType).fits z then (.ok z, noErr)
      else (.error .overflowError, noErr) := by
  unfold i64.extract
  by_cases h64 : p.longIs64 = true
  · rw [if_pos h64]
    apply int_fits_c_long.extract_intObj_of_sub
    intro h
    obtain ⟨h1, h2⟩ := h
    simp only [IntType.minVal, IntType.maxVal] at h1 h2
    norm_num at h1 h2
    apply c_long_fits_of_i64 p h64 z <;> norm_num <;> omega
  · rw [if_neg h64]
    exact int_convert64_signed_intObj z

/-- u32 extraction from an integer handle. -/
theorem u32_extract_intObj (p : Platform) (z : Int) :
    u32.extract p (.intObj z) noErr =
      if (⟨32, false⟩ : IntType).fits z then (.ok z, noErr)
      else (.error .overflowError, noErr) := by
  unfold u32.extract
  by_cases h64 : p.longIs64 = true
  · rw [if_pos h64]
    apply int_fits_c_long.extract_intObj_of_sub
    intro h
    obtain ⟨h1, h2⟩ := h
    simp only [IntType.minVal, IntType.maxVal] at h1 h2
    norm_num at h1 h2
    apply c_long_fits_of_i64 p h64 z <;> norm_num <;> omega
  · rw [if_neg h64]
    apply int_fits_larger_int.extract_via_if (u64.extract p) _ _ _ z
      (u64_extract_intObj p z)
    intro h
    obtain ⟨h1, h2⟩ := h
    simp only [IntType.minVal, IntType.maxVal] at h1 h2
    norm_num at h1 h2
    constructor <;> simp only [IntType.minVal, IntType.maxVal] <;> norm_num <;> omega

/-- isize extraction from an integer handle. -/
theorem isize_extract_intObj (p : Platform) (z : Int) :
    isize.extract p (.intObj z) noErr =
      if (⟨p.ptrBits, true⟩ : IntType).fits z then (.ok z, noErr)
      else (.error .overflowError, noErr) := by
  unfold isize.extract
  by_cases h64 : p.longIs64 = true
  · rw [if_pos h64]
    apply int_fits_c_long.extract_intObj_of_sub
    intro h
    obtain ⟨h1, h2⟩ := h
    rw [ptrBits_of_longIs64 p h64] at h1 h2
    simp only [IntType.minVal, IntType.maxVal] at h1 h2
    norm_num at h1 h2
    apply c_long_fits_of_i64 p h64 z <;> norm_num <;> omega
  · rw [if_neg h64]
    apply int_fits_larger_int.extract_via_if (i64.extract p) _ _ _ z
      (i64_extract_intObj p z)
    intro h
    obtain ⟨h1, h2⟩ := h
    simp only [IntType.minVal, IntType.maxVal] at h1 h2
    rcases p.ptrBits_cases with hp | hp <;> rw [hp] at h1 h2 <;>
      norm_num at h1 h2 <;>
      constructor <;> simp only [IntType.minVal, IntType.maxVal] <;>
      norm_num <;> omega

/-- usize extraction from an integer handle. -/
theorem usize_extract_intObj (p : Platform) (z : Int) :
    usize.extract p (.intObj z) noErr =
      if (⟨p.ptrBits, false⟩ : IntType).fits z then (.ok z, noErr)
      else (.error .overflowError, noErr) := by
  unfold usize.extract
  apply int_fits_larger_int.extract_via_if (u64.extract p) _ _ _ z
    (u64_extract_intObj p z)
  intro h
  obtain ⟨h1, h2⟩ := h
  simp only [IntType.minVal, IntType.maxVal] at h1 h2
  rcases p.ptrBits_cases with hp | hp <;> rw [hp] at h1 h2 <;>
    norm_num at h1 h2 <;>
    constructor <;> simp only [IntType.minVal, IntType.maxVal] <;>
    norm_num <;> omega

/-- Extraction of an integer handle in a clean state: the exact held value
when it is representable in the target type, otherwise an OverflowError,
on every platform and for every supported Rust type. -/
theorem FromPyObject.extract_intObj_master (p : Platform) (t : RustType) (z : Int) :
    FromPyObject.extract p t (.intObj z) noErr =
      if (t.ty p).fits z then (.ok z, noErr)
      else (.error .overflowError, noErr) := by
  cases t
  case i8 => exact i8_extract_intObj p z
  case u8 => exact u8_extract_intObj p z
  case i16 => exact i16_extract_intObj p z
  case u16 => exact u16_extract_intObj p z
  case i32 => exact i32_extract_intObj p z
  case u32 => exact u32_extract_intObj p z
  case i64 => exact i64_extract_intObj p z
  case u64 => exact u64_extract_intObj p z
  case isize => exact isize_extract_intObj p z
  case usize => exact usize_extract_intObj p z

/-- The C long width is positive. -/
theorem c_long_bits_pos (p : Platform) : 0 < (c_long p).bits := by
  rcases p.longBits_cases with hl | hl <;> simp [c_long, hl]

/-- to_object through int_fits_c_long yields the exact integer object when
the value fits the platform C long. -/
theorem int_fits_c_long.to_object_fits (p : Platform) (v : Int)
    (h : (c_long p).fits v) :
    int_fits_c_long.to_object p v = .ran (.intObj v) := by
  unfold int_fits_c_long.to_object int_fits_c_long.to_object_via
  rw [IntType.wrap_eq_self (c_long_bits_pos p) h]
  rfl

/-- i8 conversion produces the exact integer object. -/
theorem i8_into_intObj (p : Platform) (v : Int)
    (h : (⟨8, true⟩ : IntType).fits v) :
    i8.into_object p v = .ran (.intObj v) := by
  unfold i8.into_object
  apply int_fits_c_long.to_object_fits
  obtain ⟨h1, h2⟩ := h
  simp only [IntType.minVal, IntType.maxVal] at h1 h2
  norm_num at h1 h2
  apply c_long_fits_of_i32 p v <;> norm_num <;> omega

/-- u8 conversion produces the exact integer object. -/
theorem u8_into_intObj (p : Platform) (v : Int)
    (h : (⟨8, false⟩ : IntType).fits v) :
    u8.into_object p v = .ran (.intObj v) := by
  unfold u8.into_object
  apply int_fits_c_long.to_object_fits
  obtain ⟨h1, h2⟩ := h
  simp only [IntType.minVal, IntType.maxVal] at h1 h2
  norm_num at h1 h2
  apply c_long_fits_of_i32 p v <;> norm_num <;> omega

/-- i16 conversion produces the exact integer object. -/
theorem i16_into_intObj (p : Platform) (v : Int)
    (h : (⟨16, true⟩ : IntType).fits v) :
    i16.into_object p v = .ran (.intObj v) := by
  unfold i16.into_object
  apply int_fits_c_long.to_object_fits
  obtain ⟨h1, h2⟩ := h
  simp only [IntType.minVal, IntType.maxVal] at h1 h2
  norm_num at h1 h2
  apply c_long_fits_of_i32 p v <;> norm_num <;> omega

/-- u16 conversion produces the exact integer object. -/
theorem u16_into_intObj (p : Platform) (v : Int)
    (h : (⟨16, false⟩ : IntType).fits v) :
    u16.into_object p v = .ran (.intObj v) := by
  unfold u16.into_object
  apply int_fits_c_long.to_object_fits
  obtain ⟨h1, h2⟩ := h
  simp only [IntType.minVal, IntType.maxVal] at h1 h2
  norm_num at h1 h2
  apply c_long_fits_of_i32 p v <;> norm_num <;> omega

/-- i32 conversion produces the exact integer object. -/
theorem i32_into_intObj (p : Platform) (v : Int)
    (h : (⟨32, true⟩ : IntType).fits v) :
    i32.into_object p v = .ran (.intObj v) := by
  unfold i32.into_object
  apply int_fits_c_long.to_object_fits
  obtain ⟨h1, h2⟩ := h
  simp only [IntType.minVal, IntType.maxVal] at h1 h2
  norm_num at h1 h2
  apply c_long_fits_of_i32 p v <;> norm_num <;> omega

/-- u64 conversion produces the exact integer object, unconditionally. -/
theorem u64_into_intObj (p : Platform) (v : Int) :
    u64.into_object p v = .ran (.intObj v) := rfl

/-- i64 conversion produces the exact integer object. -/
theorem i64_into_intObj (p : Platform) (v : Int)
    (h : (⟨64, true⟩ : IntType).fits v) :
    i64.into_object p v = .ran (.intObj v) := by
  unfold i64.into_object
  by_cases h64 : p.longIs64 = true
  · rw [if_pos h64]
    apply int_fits_c_long.to_object_fits
    obtain ⟨h1, h2⟩ := h
    simp only [IntType.minVal, IntType.maxVal] at h1 h2
    norm_num at h1 h2
    apply c_long_fits_of_i64 p h64 v <;> norm_num <;> omega
  · rw [if_neg h64]
    rfl

/-- u32 conversion produces the exact integer object. -/
theorem u32_into_intObj (p : Platform) (v : Int)
    (h : (⟨32, false⟩ : IntType).fits v) :
    u32.into_object p v = .ran (.intObj v) := by
  obtain ⟨h1, h2⟩ := h
  simp only [IntType.minVal, IntType.maxVal] at h1 h2
  norm_num at h1 h2
  unfold u32.into_object
  by_cases h64 : p.longIs64 = true
  · rw [if_pos h64]
    apply int_fits_c_long.to_object_fits
    apply c_long_fits_of_i64 p h64 v <;> norm_num <;> omega
  · rw [if_neg h64]
    unfold int_fits_larger_int.to_object_via
    rw [IntType.wrap_eq_self (by norm_num)
      (⟨by simp only [IntType.minVal]; norm_num; omega,
        by simp only [IntType.maxVal]; norm_num; omega⟩ :
        (⟨64, false⟩ : IntType).fits v)]
    rfl

/-- isize conversion produces the exact integer object. -/
theorem isize_into_intObj (p : Platform) (v : Int)
    (h : (⟨p.ptrBits, true⟩ : IntType).fits v) :
    isize.into_object p v = .ran (.intObj v) := by
  obtain ⟨h1, h2⟩ := h
  simp only [IntType.minVal, IntType.maxVal] at h1 h2
  have hr : -(2 ^ 63) ≤ v ∧ v ≤ 2 ^ 63 - 1 := by
    rcases p.ptrBits_cases with hp | hp <;> rw [hp] at h1 h2 <;>
      norm_num at h1 h2 ⊢ <;> omega
  unfold isize.into_object
  by_cases h64 : p.longIs64 = true
  · rw [if_pos h64]
    apply int_fits_c_long.to_object_fits
    exact c_long_fits_of_i64 p h64 v hr.1 hr.2
  · rw [if_neg h64]
    unfold int_fits_larger_int.to_object_via
    rw [IntType.wrap_eq_self (by norm_num)
      (⟨by simp only [IntType.minVal]; norm_num; exact hr.1,
        by simp only [IntType.maxVal]; norm_num; have := hr.2; omega⟩ :
        (⟨64, true⟩ : IntType).fits v)]
    unfold i64.into_object
    rw [if_neg h64]
    rfl

/-- usize conversion produces the exact integer object. -/
theorem usize_into_intObj (p : Platform) (v : Int)
    (h : (⟨p.ptrBits, false⟩ : IntType).fits v) :
    usize.into_object p v = .ran (.intObj v) := by
  obtain ⟨h1, h2⟩ := h
  simp only [IntType.minVal, IntType.maxVal] at h1 h2
  have hr : 0 ≤ v ∧ v ≤ 2 ^ 64 - 1 := by
    rcases p.ptrBits_cases with hp | hp <;> rw [hp] at h1 h2 <;>
      norm_num at h1 h2 ⊢ <;> omega
  unfold usize.into_object
  unfold int_fits_larger_int.to_object_via
  rw [IntType.wrap_eq_self (by norm_num)
    (⟨by simp only [IntType.minVal]; norm_num; exact hr.1,
      by simp only [IntType.maxVal]; norm_num; have := hr.2; omega⟩ :
      (⟨64, false⟩ : IntType).fits v)]
  rfl

/-- Conversion of a representable value yields the exact integer object, on
every platform and for every supported Rust type. -/
theorem IntoPyObject.into_object_intObj (p : Platform) (t : RustType) (v : Int)
    (h : (t.ty p).fits v) :
    IntoPyObject.into_object p t v = .ran (.intObj v) := by
  cases t
  case i8 => exact i8_into_intObj p v h
  case u8 => exact u8_into_intObj p v h
  case i16 => exact i16_into_intObj p v h
  case u16 => exact u16_into_intObj p v h
  case i32 => exact i32_into_intObj p v h
  case u32 => exact u32_into_intObj p v h
  case i64 => exact i64_into_intObj p v h
  case u64 => exact u64_into_intObj p v
  case isize => exact isize_into_intObj p v h
  case usize => exact usize_into_intObj p v h

/-- Small-width extraction depends on the handle only through the result of
PyLong_AsLong on it. -/
theorem int_fits_c_long.extract_congr (p : Platform) (t : IntType)
    (o1 o2 : PyObjectRef) (s : PyState)
    (h : PyLong_AsLong p o1 s = PyLong_AsLong p o2 s) :
    int_fits_c_long.extract p t o1 s = int_fits_c_long.extract p t o2 s := by
  unfold int_fits_c_long.extract
  rw [h]

/-- Small-width extraction of a handle whose coercion raises e propagates
exactly that pending error. -/
theorem int_fits_c_long.extract_nonInt_error (p : Platform) (t : IntType)
    (e : PyErrKind) :
    int_fits_c_long.extract p t (.nonInt (.error e)) noErr =
      (.error e, noErr) := by
  simp [int_fits_c_long.extract, PyLong_AsLong, PyObjectRef.asInteger,
    PyErr.occurred, PyErr.fetch, noErr]

/-- The 64-bit adapter on a handle whose coercion raises e propagates
exactly that pending error, for any accessor. -/
theorem int_convert64_nonInt_error (t : IntType)
    (acc : PyObjectRef → PyState → Int × PyState) (e : PyErrKind) :
    int_convert_u64_or_i64.extract t acc (.nonInt (.error e)) noErr =
      (.error e, noErr) := by
  simp [int_convert_u64_or_i64.extract, PyLong_Check, PyNumber_Long,
    PyObjectRef.asInteger, PyErr.fetch, noErr]

/-- The 64-bit adapter on a non-integer handle coercing to z behaves exactly
like on the integer object holding z, for any accessor. -/
theorem int_convert64_coerce_eq (t : IntType)
    (acc : PyObjectRef → PyState → Int × PyState) (z : Int) :
    int_convert_u64_or_i64.extract t acc (.nonInt (.ok z)) noErr =
      int_convert_u64_or_i64.extract t acc (.intObj z) noErr := by
  simp [int_convert_u64_or_i64.extract, PyLong_Check, PyNumber_Long,
    PyObjectRef.asInteger]

/-- i64 extraction of a handle whose coercion raises e. -/
theorem i64_extract_nonInt_error (p : Platform) (e : PyErrKind) :
    i64.extract p (.nonInt (.error e)) noErr = (.error e, noErr) := by
  unfold i64.extract
  by_cases h64 : p.longIs64 = true
  · rw [if_pos h64]
    exact int_fits_c_long.extract_nonInt_error p _ e
  · rw [if_neg h64]
    exact int_convert64_nonInt_error _ _ e

/-- i64 extraction of a non-integer handle coercing to z. -/
theorem i64_extract_nonInt_ok (p : Platform) (z : Int) :
    i64.extract p (.nonInt (.ok z)) noErr = i64.extract p (.intObj z) noErr := by
  unfold i64.extract
  by_cases h64 : p.longIs64 = true
  · simp only [if_pos h64]
    exact int_fits_c_long.extract_congr p _ _ _ _ rfl
  · simp only [if_neg h64]
    exact int_convert64_coerce_eq _ _ z

/-- C1: Round-trip law: for every supported native integer type and every
value representable in it, to_object and into_object produce the integer
object holding exactly that value, and extracting that object back into the
same type succeeds with exactly the original value, on every platform; no
successful conversion silently truncates. -/
theorem round_trip_law (p : Platform) (t : RustType) (v : Int)
    (h : (t.ty p).fits v) :
    ToPyObject.to_object p t v = .ran (.intObj v) ∧
    IntoPyObject.into_object p t v = .ran (.intObj v) ∧
    FromPyObject.extract p t (.intObj v) noErr = (.ok v, noErr) := by
  refine ⟨IntoPyObject.into_object_intObj p t v h,
    IntoPyObject.into_object_intObj p t v h, ?_⟩
  rw [FromPyObject.extract_intObj_master, if_pos h]

/-- Witness for round_trip_law at u8 value 200 on a 64-bit non-Windows
platform. -/
theorem round_trip_law_witness :
    ToPyObject.to_object ⟨true, false⟩ .u8 200 = .ran (.intObj 200) ∧
    IntoPyObject.into_object ⟨true, false⟩ .u8 200 = .ran (.intObj 200) ∧
    FromPyObject.extract ⟨true, false⟩ .u8 (.intObj 200) noErr =
      (.ok 200, noErr) :=
  round_trip_law ⟨true, false⟩ .u8 200 (by decide)

/-- C2: Overflow detection: extracting an integer handle whose held value
lies outside the target type range fails with an OverflowError on every
platform; it never wraps, truncates or clamps. -/
theorem overflow_detection (p : Platform) (t : RustType) (z : Int)
    (h : ¬ (t.ty p).fits z) :
    FromPyObject.extract p t (.intObj z) noErr =
      (.error .overflowError, noErr) := by
  rw [FromPyObject.extract_intObj_master, if_neg h]

/-- Witness for overflow_detection at i8 and value 300. -/
theorem overflow_detection_witness :
    FromPyObject.extract ⟨true, false⟩ .i8 (.intObj 300) noErr =
      (.error .overflowError, noErr) :=
  overflow_detection ⟨true, false⟩ .i8 300 (by decide)

/-- C3: Sentinel disambiguation: a result equal to the sentinel is treated
as an error only when an error is pending, and in that case the pending
error itself is propagated; in particular extracting the maximum unsigned
64-bit value, whose bit pattern equals the sentinel, succeeds with exactly
that value on every platform. -/
theorem sentinel_disambiguation :
    (∀ (inv a : Int) (s : PyState), ¬(a = inv ∧ PyErr.occurred s = true) →
        err_if_invalid_value inv a s = (.ok a, s)) ∧
    (∀ (inv a : Int) (e : PyErrKind), a = inv →
        err_if_invalid_value inv a ⟨some e⟩ = (.error e, noErr)) ∧
    (∀ p : Platform,
        FromPyObject.extract p .u64 (.intObj (2 ^ 64 - 1)) noErr =
          (.ok (2 ^ 64 - 1), noErr)) := by
  refine ⟨?_, ?_, ?_⟩
  · intro inv a s hna
    unfold err_if_invalid_value
    rw [if_neg hna]
  · intro inv a e ha
    unfold err_if_invalid_value
    rw [if_pos ⟨ha, rfl⟩]
    rfl
  · intro p
    have hfit : (RustType.ty p .u64).fits (2 ^ 64 - 1) := by
      show (⟨64, false⟩ : IntType).fits (2 ^ 64 - 1)
      exact ⟨by norm_num [IntType.minVal], by norm_num [IntType.maxVal]⟩
    rw [FromPyObject.extract_intObj_master, if_pos hfit]

/-- Witness for sentinel_disambiguation: the all-bits value is accepted by
the sentinel check in a clean state, and u64 extraction of the maximum
unsigned value succeeds on a 64-bit Windows platform. -/
theorem sentinel_disambiguation_witness :
    err_if_invalid_value (2 ^ 64 - 1) (2 ^ 64 - 1) noErr =
      (.ok (2 ^ 64 - 1), noErr) ∧
    FromPyObject.extract ⟨true, true⟩ .u64 (.intObj (2 ^ 64 - 1)) noErr =
      (.ok (2 ^ 64 - 1), noErr) :=
  ⟨sentinel_disambiguation.1 (2 ^ 64 - 1) (2 ^ 64 - 1) noErr
      (by simp [PyErr.occurred, noErr]),
   sentinel_disambiguation.2.2 ⟨true, true⟩⟩

/-- C4: Signed/unsigned boundary: a value above the signed maximum of a
width fails extraction into the signed type of that width with an
OverflowError; a non-negative value within an unsigned type range succeeds
into that unsigned type; a negative value fails extraction into every
unsigned type with an OverflowError. -/
theorem signed_unsigned_boundary (p : Platform) (t : RustType) (z : Int) :
    ((t.ty p).signed = true → (t.ty p).maxVal < z →
        FromPyObject.extract p t (.intObj z) noErr =
          (.error .overflowError, noErr)) ∧
    ((t.ty p).signed = false → 0 ≤ z → z ≤ (t.ty p).maxVal →
        FromPyObject.extract p t (.intObj z) noErr = (.ok z, noErr)) ∧
    ((t.ty p).signed = false → z < 0 →
        FromPyObject.extract p t (.intObj z) noErr =
          (.error .overflowError, noErr)) := by
  refine ⟨?_, ?_, ?_⟩
  · intro hs hz
    have hnf : ¬ (t.ty p).fits z := by
      intro hf
      obtain ⟨hf1, hf2⟩ := hf
      exact absurd hf2 (not_le.mpr hz)
    rw [FromPyObject.extract_intObj_master, if_neg hnf]
  · intro hs h0 hz
    have hmin : (t.ty p).minVal = 0 := by simp [IntType.minVal, hs]
    have hf : (t.ty p).fits z := ⟨by rw [hmin]; exact h0, hz⟩
    rw [FromPyObject.extract_intObj_master, if_pos hf]
  · intro hs hz
    have hmin : (t.ty p).minVal = 0 := by simp [IntType.minVal, hs]
    have hnf : ¬ (t.ty p).fits z := by
      intro hf
      obtain ⟨hf1, hf2⟩ := hf
      rw [hmin] at hf1
      exact absurd hf1 (not_le.mpr hz)
    rw [FromPyObject.extract_intObj_master, if_neg hnf]

/-- Witness for signed_unsigned_boundary at width 32 and value 2 ^ 31,
and at the negative value -1, on a 64-bit non-Windows platform. -/
theorem signed_unsigned_boundary_witness :
    FromPyObject.extract ⟨true, false⟩ .i32 (.intObj (2 ^ 31)) noErr =
      (.error .overflowError, noErr) ∧
    FromPyObject.extract ⟨true, false⟩ .u32 (.intObj (2 ^ 31)) noErr =
      (.ok (2 ^ 31), noErr) ∧
    FromPyObject.extract ⟨true, false⟩ .u32 (.intObj (-1)) noErr =
      (.error .overflowError, noErr) :=
  ⟨(signed_unsigned_boundary ⟨true, false⟩ .i32 (2 ^ 31)).1 (by decide)
      (by decide),
   (signed_unsigned_boundary ⟨true, false⟩ .u32 (2 ^ 31)).2.1 (by decide)
      (by decide) (by decide),
   (signed_unsigned_boundary ⟨true, false⟩ .u32 (-1)).2.2 (by decide)
      (by decide)⟩

/-- C5: Cross-width round-trip: converting a representable value through
type t and extracting through a type t2 whose range includes the range of t
at that value succeeds and yields the value widened without loss. -/
theorem cross_width_round_trip (p : Platform) (t t2 : RustType) (v : Int)
    (h : (t.ty p).fits v)
    (hmin : (t2.ty p).minVal ≤ (t.ty p).minVal)
    (hmax : (t.ty p).maxVal ≤ (t2.ty p).maxVal) :
    ToPyObject.to_object p t v = .ran (.intObj v) ∧
    FromPyObject.extract p t2 (.intObj v) noErr = (.ok v, noErr) := by
  refine ⟨IntoPyObject.into_object_intObj p t v h, ?_⟩
  rw [FromPyObject.extract_intObj_master,
    if_pos ⟨le_trans hmin h.1, le_trans h.2 hmax⟩]

/-- Witness for cross_width_round_trip: the maximum u32 value converted via
u32 and extracted as u64. -/
theorem cross_width_round_trip_witness :
    ToPyObject.to_object ⟨true, false⟩ .u32 (2 ^ 32 - 1) =
      .ran (.intObj (2 ^ 32 - 1)) ∧
    FromPyObject.extract ⟨true, false⟩ .u64 (.intObj (2 ^ 32 - 1)) noErr =
      (.ok (2 ^ 32 - 1), noErr) :=
  cross_width_round_trip ⟨true, false⟩ .u32 .u64 (2 ^ 32 - 1) (by decide)
    (by decide) (by decide)

/-- C6: u64 is converted through the dedicated unsigned 64-bit constructor
and accessor on every platform configuration, never through the small-width
C long adapter: its adapter assignment is unconditional, its conversion and
extraction are the unsigned 64-bit instantiation of int_convert_u64_or_i64,
the conversion is exact for every value (in particular above the signed
maximum), and extraction of the all-bits maximum succeeds. -/
theorem u64_dedicated_adapter (p : Platform) :
    adapterFor p .u64 = .convert64 false ∧
    (∀ v : Int, IntoPyObject.into_object p .u64 v =
        int_convert_u64_or_i64.to_object_via PyLong_FromUnsignedLongLong v) ∧
    (∀ (ob : PyObjectRef) (s : PyState), FromPyObject.extract p .u64 ob s =
        int_convert_u64_or_i64.extract ⟨64, false⟩ PyLong_AsUnsignedLongLong
          ob s) ∧
    (∀ v : Int, IntoPyObject.into_object p .u64 v = .ran (.intObj v)) ∧
    FromPyObject.extract p .u64 (.intObj (2 ^ 64 - 1)) noErr =
      (.ok (2 ^ 64 - 1), noErr) := by
  refine ⟨rfl, fun v => rfl, fun ob s => rfl, fun v => rfl, ?_⟩
  have hfit : (RustType.ty p .u64).fits (2 ^ 64 - 1) := by
    show (⟨64, false⟩ : IntType).fits (2 ^ 64 - 1)
    exact ⟨by norm_num [IntType.minVal], by norm_num [IntType.maxVal]⟩
  rw [FromPyObject.extract_intObj_master, if_pos hfit]

/-- C7: 64-bit extraction coercion: on a non-integer handle the 64-bit
adapter first coerces through PyNumber_Long; a failed coercion propagates
exactly the pending error it raised, and a successful coercion makes the
extraction behave exactly as on the coerced integer object, with the same
sentinel check; at the dispatcher level, i64 and u64 extraction from a
non-integer handle propagates a coercion failure and agrees with extraction
of the coerced value, on every platform. -/
theorem sixtyfour_bit_extraction_coercion :
    (∀ e : PyErrKind,
        int_convert_u64_or_i64.extract ⟨64, true⟩ PyLong_AsLongLong
          (.nonInt (.error e)) noErr = (.error e, noErr) ∧
        int_convert_u64_or_i64.extract ⟨64, false⟩ PyLong_AsUnsignedLongLong
          (.nonInt (.error e)) noErr = (.error e, noErr)) ∧
    (∀ z : Int,
        int_convert_u64_or_i64.extract ⟨64, true⟩ PyLong_AsLongLong
          (.nonInt (.ok z)) noErr =
          int_convert_u64_or_i64.extract ⟨64, true⟩ PyLong_AsLongLong
            (.intObj z) noErr ∧
        int_convert_u64_or_i64.extract ⟨64, false⟩ PyLong_AsUnsignedLongLong
          (.nonInt (.ok z)) noErr =
          int_convert_u64_or_i64.extract ⟨64, false⟩ PyLong_AsUnsignedLongLong
            (.intObj z) noErr) ∧
    (∀ (p : Platform) (e : PyErrKind) (tq : RustType),
        tq = .i64 ∨ tq = .u64 →
        FromPyObject.extract p tq (.nonInt (.error e)) noErr =
          (.error e, noErr)) ∧
    (∀ (p : Platform) (z : Int) (tq : RustType),
        tq = .i64 ∨ tq = .u64 →
        FromPyObject.extract p tq (.nonInt (.ok z)) noErr =
          FromPyObject.extract p tq (.intObj z) noErr) := by
  refine ⟨?_, ?_, ?_, ?_⟩
  · intro e
    exact ⟨int_convert64_nonInt_error _ _ e, int_convert64_nonInt_error _ _ e⟩
  · intro z
    exact ⟨int_convert64_coerce_eq _ _ z, int_convert64_coerce_eq _ _ z⟩
  · intro p e tq htq
    rcases htq with h | h <;> subst h
    · exact i64_extract_nonInt_error p e
    · exact int_convert64_nonInt_error ⟨64, false⟩ PyLong_AsUnsignedLongLong e
  · intro p z tq htq
    rcases htq with h | h <;> subst h
    · exact i64_extract_nonInt_ok p z
    · exact int_convert64_coerce_eq ⟨64, false⟩ PyLong_AsUnsignedLongLong z

/-- Witness for sixtyfour_bit_extraction_coercion: a failed coercion during
i64 extraction on a 64-bit platform propagates the TypeError, and u64
extraction of a coercible non-integer equals extraction of the coerced
integer on a 32-bit platform. -/
theorem sixtyfour_bit_extraction_coercion_witness :
    FromPyObject.extract ⟨true, false⟩ .i64 (.nonInt (.error .typeError))
      noErr = (.error .typeError, noErr) ∧
    FromPyObject.extract ⟨false, false⟩ .u64 (.nonInt (.ok 7)) noErr =
      FromPyObject.extract ⟨false, false⟩ .u64 (.intObj 7) noErr :=
  ⟨sixtyfour_bit_extraction_coercion.2.2.1 ⟨true, false⟩ .typeError .i64
      (Or.inl rfl),
   sixtyfour_bit_extraction_coercion.2.2.2 ⟨false, false⟩ 7 .u64
      (Or.inr rfl)⟩

/-- Definition following the spec wording of section 4.2 for the widening
to-interpreter conversion: delegate to the larger type after a lossless
widening, which on mathematical values is the identity. -/
def spec_widening_to_object (larger_into : Int → PanicOr PyObjectRef)
    (v : Int) : PanicOr PyObjectRef :=
  larger_into v

/-- Definition following the spec wording of section 4.2 for the widening
extraction: obtain the larger-type value, then narrow with an overflow
error exactly when the narrowing would alter the value. -/
def spec_widening_extract
    (larger_extract : PyObjectRef → PyState → Except PyErrKind Int × PyState)
    (t : IntType) (ob : PyObjectRef) (s : PyState) :
    Except PyErrKind Int × PyState :=
  match larger_extract ob s with
  | (.ok val, s1) =>
      if t.fits val then (.ok val, s1) else (.error .overflowError, s1)
  | (.error e, s1) => (.error e, s1)

/-- C8: the widening adapter is purely compositional: for any larger
adapter whatsoever (hence without any direct runtime call of its own), its
conversion is the larger conversion of the losslessly widened value and its
extraction is the larger extraction followed by a checked narrowing that
fails exactly when narrowing would alter the value; and the cfg wiring
routes usize through it everywhere, and u32 and isize through it exactly on
32-bit or Windows platforms. -/
theorem widening_adapter_compositional :
    (∀ (larger_into : Int → PanicOr PyObjectRef) (lt : IntType) (v : Int),
        0 < lt.bits → lt.fits v →
        int_fits_larger_int.to_object_via larger_into lt v =
          spec_widening_to_object larger_into v) ∧
    (∀ (larger_extract :
          PyObjectRef → PyState → Except PyErrKind Int × PyState)
        (t : IntType) (ob : PyObjectRef) (s : PyState),
        int_fits_larger_int.extract_via larger_extract t ob s =
          spec_widening_extract larger_extract t ob s) ∧
    (∀ p : Platform, adapterFor p .usize = .fits_larger .u64) ∧
    (∀ p : Platform, p.longIs64 = false →
        adapterFor p .u32 = .fits_larger .u64 ∧
        adapterFor p .isize = .fits_larger .i64) := by
  refine ⟨?_, ?_, fun p => rfl, ?_⟩
  · intro li lt v hb hfit
    unfold int_fits_larger_int.to_object_via spec_widening_to_object
    rw [IntType.wrap_eq_self hb hfit]
  · intro le t ob s
    rcases hle : le ob s with ⟨r, s1⟩
    rcases r with e | val
    · simp [int_fits_larger_int.extract_via, spec_widening_extract, hle]
    · by_cases ht : t.fits val <;>
        simp [int_fits_larger_int.extract_via, spec_widening_extract, hle,
          num_traits.cast, ht]
  · intro p h
    constructor <;> simp [adapterFor, h]

/-- Witness for widening_adapter_compositional at a concrete larger adapter
and value, and the concrete 32-bit platform wiring. -/
theorem widening_adapter_compositional_witness :
    int_fits_larger_int.to_object_via (fun z => PanicOr.ran (.intObj z))
        ⟨64, false⟩ 5 =
      spec_widening_to_object (fun z => PanicOr.ran (.intObj z)) 5 ∧
    (adapterFor ⟨false, false⟩ .u32 = .fits_larger .u64 ∧
      adapterFor ⟨false, false⟩ .isize = .fits_larger .i64) :=
  ⟨widening_adapter_compositional.1 (fun z => PanicOr.ran (.intObj z))
      ⟨64, false⟩ 5 (by norm_num) (by decide),
   widening_adapter_compositional.2.2.2 ⟨false, false⟩ (by decide)⟩

/-- C9: the to-interpreter conversion has a non-failing signature: it never
produces a recoverable error value. A null handle from the underlying
constructor aborts the calling operation through from_owned_ptr_or_panic in
both constructor-calling families, and under the documented runtime (whose
integer constructors never return null) every conversion returns a handle
normally, for every type and platform. -/
theorem to_object_no_recoverable_failure :
    PyObject.from_owned_ptr_or_panic none = .aborted ∧
    (∀ o : PyObjectRef, PyObject.from_owned_ptr_or_panic (some o) = .ran o) ∧
    (∀ (f : Int → Option PyObjectRef) (p : Platform) (v : Int),
        f ((c_long p).wrap v) = none →
        int_fits_c_long.to_object_via f p v = .aborted) ∧
    (∀ (f : Int → Option PyObjectRef) (v : Int), f v = none →
        int_convert_u64_or_i64.to_object_via f v = .aborted) ∧
    (∀ (p : Platform) (t : RustType) (v : Int),
        ∃ o : PyObjectRef, IntoPyObject.into_object p t v = .ran o) := by
  refine ⟨rfl, fun o => rfl, ?_, ?_, ?_⟩
  · intro f p v hf
    unfold int_fits_c_long.to_object_via
    rw [hf]
    rfl
  · intro f v hf
    unfold int_convert_u64_or_i64.to_object_via
    rw [hf]
    rfl
  · intro p t v
    cases t
    case i8 => exact ⟨_, rfl⟩
    case u8 => exact ⟨_, rfl⟩
    case i16 => exact ⟨_, rfl⟩
    case u16 => exact ⟨_, rfl⟩
    case i32 => exact ⟨_, rfl⟩
    case u64 => exact ⟨_, rfl⟩
    case usize => exact ⟨_, rfl⟩
    case i64 =>
      by_cases h64 : p.longIs64 = true
      · refine ⟨.intObj ((c_long p).wrap v), ?_⟩
        simp only [IntoPyObject.into_object, i64.into_object, if_pos h64]
        rfl
      · refine ⟨.intObj v, ?_⟩
        simp only [IntoPyObject.into_object, i64.into_object, if_neg h64]
        rfl
    case u32 =>
      by_cases h64 : p.longIs64 = true
      · refine ⟨.intObj ((c_long p).wrap v), ?_⟩
        simp only [IntoPyObject.into_object, u32.into_object, if_pos h64]
        rfl
      · refine ⟨.intObj ((⟨64, false⟩ : IntType).wrap v), ?_⟩
        simp only [IntoPyObject.into_object, u32.into_object, if_neg h64,
          int_fits_larger_int.to_object_via]
        rfl
    case isize =>
      by_cases h64 : p.longIs64 = true
      · refine ⟨.intObj ((c_long p).wrap v), ?_⟩
        simp only [IntoPyObject.into_object, isize.into_object, if_pos h64]
        rfl
      · refine ⟨.intObj ((⟨64, true⟩ : IntType).wrap v), ?_⟩
        simp only [IntoPyObject.into_object, isize.into_object, if_neg h64,
          int_fits_larger_int.to_object_via, i64.into_object]
        rfl

/-- Witness for to_object_no_recoverable_failure: a constructor returning
null makes both conversion families abort. -/
theorem to_object_no_recoverable_failure_witness :
    int_fits_c_long.to_object_via (fun z => (none : Option PyObjectRef))
      ⟨true, false⟩ 5 = .aborted ∧
    int_convert_u64_or_i64.to_object_via (fun z => (none : Option PyObjectRef))
      5 = .aborted :=
  ⟨to_object_no_recoverable_failure.2.2.1
      (fun z => (none : Option PyObjectRef)) ⟨true, false⟩ 5 rfl,
   to_object_no_recoverable_failure.2.2.2.1
      (fun z => (none : Option PyObjectRef)) 5 rfl⟩

/-- C10: the small-width extraction performs no integer type check and no
numeric coercion of its own: its outcome is a function of the result of the
runtime C long accessor alone, so a non-integer handle coercing to z is
treated exactly like the integer object holding z, and a handle whose
coercion fails yields exactly the accessor's pending error through the
sentinel check. -/
theorem small_width_accessor_only :
    (∀ (p : Platform) (t : IntType) (o1 o2 : PyObjectRef) (s : PyState),
        PyLong_AsLong p o1 s = PyLong_AsLong p o2 s →
        int_fits_c_long.extract p t o1 s = int_fits_c_long.extract p t o2 s) ∧
    (∀ (p : Platform) (t : IntType) (z : Int) (s : PyState),
        int_fits_c_long.extract p t (.nonInt (.ok z)) s =
          int_fits_c_long.extract p t (.intObj z) s) ∧
    (∀ (p : Platform) (t : IntType) (e : PyErrKind),
        int_fits_c_long.extract p t (.nonInt (.error e)) noErr =
          (.error e, noErr)) := by
  refine ⟨int_fits_c_long.extract_congr, ?_,
    int_fits_c_long.extract_nonInt_error⟩
  intro p t z s
  exact int_fits_c_long.extract_congr p t _ _ s rfl

/-- Witness for small_width_accessor_only: the accessor-congruence at a
concrete pair of handles with equal accessor results, and error propagation
for a concrete failing handle. -/
theorem small_width_accessor_only_witness :
    int_fits_c_long.extract ⟨true, false⟩ ⟨8, true⟩ (.nonInt (.ok 5)) noErr =
      int_fits_c_long.extract ⟨true, false⟩ ⟨8, true⟩ (.intObj 5) noErr ∧
    int_fits_c_long.extract ⟨true, false⟩ ⟨8, true⟩
        (.nonInt (.error .typeError)) noErr = (.error .typeError, noErr) :=
  ⟨small_width_accessor_only.1 ⟨true, false⟩ ⟨8, true⟩ (.nonInt (.ok 5))
      (.intObj 5) noErr rfl,
   small_width_accessor_only.2.2 ⟨true, false⟩ ⟨8, true⟩ .typeError⟩
